import Mathlib

/-!
Verification of `example/uber-button.py` (rides-python-sdk).

The script is a sequential glue program: on a button press it geocodes two
hardcoded addresses (through an on-disk cache), requests a ride with upfront
pricing from the ride API, walks the ride through the sandbox status updates
`accepted`, `in_progress`, `completed`, and shows a blocking dialog with ETA
and fare.

We embed the script shallowly.  Every observable effect (API call, print,
sleep, cache write, GUI action) is recorded as an `Event` in a trace; the
external collaborators (ride SDK client, geocoder, GUI event source) are
oracles packaged in an `Env`.  A computation is a pair of the trace emitted
so far and an outcome: normal return, a propagating Python exception, or a
hang (a blocking call that never returns).
-/

namespace UberButton

/-- Python exceptions that the script can raise or catch.  `clientError` and
`serverError` are the `ClientError` / `ServerError`; the others are
builtin exceptions that the script can trigger (and never catches). -/
inductive PyExn where
  | clientError (msg : String)
  | serverError (msg : String)
  | typeError (msg : String)
  | attributeError (msg : String)
  | keyError (k : String)
deriving DecidableEq, Repr

/-- The exception classes named in the scripts `except (ClientError, ServerError)`
clauses: matches exactly those two. -/
def PyExn.isCS : PyExn → Bool
  | .clientError _ => true
  | .serverError _ => true
  | _ => false

/-- JSON-ish Python values as stored in API response bodies.  `none` is Python
`None` (also the result of `dict.get` on a missing key). -/
inductive JVal where
  | none
  | str (s : String)
  | num (q : ℚ)
  | obj (fields : List (String × JVal))
deriving Repr

/-- Python `d.get(k)` on a dict: the value, or `None` when the key is absent. -/
def dictGet (d : List (String × JVal)) (k : String) : JVal :=
  match d.lookup k with
  | Option.some v => v
  | Option.none => JVal.none

/-- Python `d[k]` on a dict: the value, or a `KeyError` when the key is absent. -/
def dictGetItem (d : List (String × JVal)) (k : String) : Except PyExn JVal :=
  match d.lookup k with
  | Option.some v => Except.ok v
  | Option.none => Except.error (PyExn.keyError k)

/-- Python `v[k]` on an arbitrary value: subscripting a dict looks the key up
(`KeyError` when absent); subscripting `None` or a scalar is a `TypeError`. -/
def JVal.getItem : JVal → String → Except PyExn JVal
  | .obj fields, k => dictGetItem fields k
  | .none, _ => Except.error (PyExn.typeError "NoneType object is not subscriptable")
  | .str _, _ => Except.error (PyExn.typeError "string indices must be integers")
  | .num _, _ => Except.error (PyExn.typeError "number is not subscriptable")

/-- Python `v / 60` (true division) on a JSON value: only numbers divide,
anything else is a `TypeError`. -/
def JVal.divByNum : JVal → ℚ → Except PyExn ℚ
  | .num q, d => Except.ok (q / d)
  | _, _ => Except.error (PyExn.typeError "unsupported operand type for /")

/-- A ride API response as used by the script: a JSON body (a dict) and an
HTTP status code. -/
structure Response where
  json : List (String × JVal)
  status_code : Nat

/-- A geocoder result (`geopy` `Location`): coordinates plus the display
string used when the location is interpolated into a message. -/
structure GeoLoc where
  latitude : ℚ
  longitude : ℚ
  display : String
deriving DecidableEq, Repr

/-- One `window.Read()` result in the PySimpleGUI event loop: the event
(`none` for a closed window, otherwise the button text) and the values dict. -/
structure WinEvent where
  event : Option String
  values : JVal
deriving Repr

/-- The functions the script ever registers as a GPIO callback: only
`on_button`. -/
inductive Callback where
  | onButtonCb
deriving DecidableEq, Repr

/-- The observable effects of the script, in program order. -/
inductive Event where
  | cancelCurrentRide
  | estimateRideCall (productId : String) (startLat startLng endLat endLng : ℚ)
      (seatCount : Nat)
  | requestRideCall (productId : String) (startLat startLng endLat endLng : ℚ)
      (seatCount : Nat) (fareId : JVal)
  | updateSandboxRideCall (rideId : JVal) (status : String)
  | geocodeCall (location : String)
  | sleepTenths (tenths : Nat)
  | printMsg (s : String)
  | printExn (e : PyExn)
  | printWinRead (event : Option String) (values : JVal)
  | failPrintEvt (e : PyExn)
  | successPrintJson (j : List (String × JVal))
  | successPrintMsg (s : String)
  | paragraphPrintMsg (s : String)
  | paragraphPrintRideInfo (fare pickupEstimate : JVal) (tripDurationMin : ℚ)
  | windowShow (eta price : JVal)
  | windowReadEvt
  | windowClose
  | cacheSetEvt (location : String) (value : Option GeoLoc)
  | cacheSyncEvt
  | gpioSetup
  | gpioAddEventDetectRising (pin : Nat) (callback : Callback) (bouncetimeMs : Nat)
  | inputPrompt (s : String)
  | gpioCleanup
deriving Repr

/-- Outcome of a Python computation: a value, a propagating exception, or a
call that blocks forever (e.g. `window.Read()` with no further user events). -/
inductive PyOut (α : Type) where
  | ok (a : α)
  | exn (e : PyExn)
  | hang
deriving Repr

/-- A Python computation: the trace of events it emits and its outcome. -/
def Py (α : Type) : Type := List Event × PyOut α

def Py.bind {α β : Type} (x : Py α) (f : α → Py β) : Py β :=
  match x with
  | (t, PyOut.ok a) => let y := f a; (t ++ y.1, y.2)
  | (t, PyOut.exn e) => (t, PyOut.exn e)
  | (t, PyOut.hang) => (t, PyOut.hang)

instance : Monad Py where
  pure a := ([], PyOut.ok a)
  bind := Py.bind

/-- Emit events. -/
def Py.emit (es : List Event) : Py Unit := (es, PyOut.ok ())

/-- Raise an exception. -/
def Py.raise {α : Type} (e : PyExn) : Py α := ([], PyOut.exn e)

/-- Lift a fallible pure step (subscripting, division) into `Py`. -/
def Py.liftE {α : Type} : Except PyExn α → Py α
  | Except.ok a => ([], PyOut.ok a)
  | Except.error e => ([], PyOut.exn e)

/-- An SDK call: the call event is emitted, then the answer of the oracle is either
returned or raised. -/
def Py.apiCall (ev : Event) (r : Except PyExn Response) : Py Response :=
  match r with
  | Except.ok resp => ([ev], PyOut.ok resp)
  | Except.error e => ([ev], PyOut.exn e)

/-- Python `try:`/`except (ClientError, ServerError):`/`else:`.  The handler
runs only for those two exception classes; a different exception propagates;
the `else` branch runs after a completed `try` body and its exceptions are not
caught. -/
def tryExceptCSElse {α β : Type} (tryPart : Py α) (handler : PyExn → Py β)
    (elsePart : α → Py β) : Py β :=
  match tryPart with
  | (t, PyOut.ok a) => let y := elsePart a; (t ++ y.1, y.2)
  | (t, PyOut.exn e) =>
      if e.isCS then let y := handler e; (t ++ y.1, y.2) else (t, PyOut.exn e)
  | (t, PyOut.hang) => (t, PyOut.hang)

/-- The external collaborators, as oracles.  The ride SDK methods may answer
or raise; the geocoder answers `None` or a location; `uiEvents` is the finite
record of everything the user will ever do in the GUI window. -/
structure Env where
  cancel_current_ride : Except PyExn Response
  estimate_ride : String → ℚ → ℚ → ℚ → ℚ → Nat → Except PyExn Response
  request_ride : String → ℚ → ℚ → ℚ → ℚ → Nat → JVal → Except PyExn Response
  update_sandbox_ride : JVal → String → Except PyExn Response
  geocode : String → Option GeoLoc
  uiEvents : List WinEvent

/-- Starting location (`START_NAME`). -/
def START_NAME : String := "Lichtenbergstraße 6, Garching bei München"

/-- End location (`END_NAME`). -/
def END_NAME : String := "Moosacher Straße 86, München"

/-- The `UFP_PRODUCT_ID` constant: the script assigns it twice in a row; the second
assignment wins. -/
def UFP_PRODUCT_ID : String := "bcb6224a-f21e-4cde-8e08-53cf9c98164d"

/-- The `SURGE_PRODUCT_ID` constant (uber black). -/
def SURGE_PRODUCT_ID : String := "d4abaae7-f4d6-4152-91cc-77523e8165a4"

/-- Modelled from the spec: `fail_print` lives in `example/utils.py`, which is
not under `src/`; per the spec each API call is "wrapped individually in error
handling that prints a failure message", so `fail_print` prints a failure
message for the error and returns. -/
def fail_print (e : PyExn) : Py Unit := Py.emit [Event.failPrintEvt e]

/-- Modelled from the spec: `success_print` lives in `example/utils.py`, which
is not under `src/`; per the spec the script "prints formatted
status/progress messages to the console", so `success_print` prints its
argument (a JSON body or a message string) and returns. -/
def success_print_json (j : List (String × JVal)) : Py Unit :=
  Py.emit [Event.successPrintJson j]

/-- Modelled from the spec: `success_print` applied to a plain message string
(see `success_print_json`). -/
def success_print_msg (s : String) : Py Unit := Py.emit [Event.successPrintMsg s]

/-- Modelled from the spec: `paragraph_print` lives in `example/utils.py`,
which is not under `src/`; per the spec the script "prints formatted
status/progress messages to the console", so `paragraph_print` prints its
message and returns. -/
def paragraph_print (s : String) : Py Unit := Py.emit [Event.paragraphPrintMsg s]

/-- The on-disk geocode cache (`fcache.FileCache`), as a key-value map from
location strings to stored geocoder results (which may be `None`). -/
def Cache : Type := List (String × Option GeoLoc)

/-- Python `location in cache` / `cache[location]`: look a key up. -/
def lookupCache (c : Cache) (k : String) : Option (Option GeoLoc) :=
  List.lookup k c

/-- Python `cache[location] = value`: bind a key (the new binding shadows any old
one). -/
def setCache (c : Cache) (k : String) (v : Option GeoLoc) : Cache := (k, v) :: c

/-- The function `get_latlng(location)`: consult the persistent cache; on a miss sleep 1.1
seconds, geocode, store the result, sync, and return `cache[location]`.
Returns the emitted trace, the cache as left on disk, and the value. -/
def get_latlng (geocode : String → Option GeoLoc) (disk : Cache)
    (location : String) : List Event × Cache × Option GeoLoc :=
  match lookupCache disk location with
  | Option.some v => ([], disk, v)
  | Option.none =>
      let result := geocode location
      ([Event.sleepTenths 11, Event.geocodeCall location,
        Event.cacheSetEvt location result, Event.cacheSyncEvt],
       setCache disk location result, result)

/-- The function `estimate_ride(api_client, ...)`: fetch a surge-product estimate and print
it; a `ClientError`/`ServerError` is caught and fail-printed. -/
def estimate_ride (env : Env) (start_lat start_lng end_lat end_lng : ℚ) :
    Py Unit :=
  tryExceptCSElse
    (Py.apiCall
      (Event.estimateRideCall SURGE_PRODUCT_ID start_lat start_lng end_lat end_lng 2)
      (env.estimate_ride SURGE_PRODUCT_ID start_lat start_lng end_lat end_lng 2))
    (fun error => fail_print error)
    (fun estimate => success_print_json estimate.json)

/-- The function `update_ride(api_client, ride_status, ride_id, verbose)`: issue a sandbox
status update; a `ClientError`/`ServerError` is caught and fail-printed,
otherwise (when verbose) the status code and new status are printed. -/
def update_ride (env : Env) (ride_status : String) (ride_id : JVal)
    (verbose : Bool) : Py Unit :=
  tryExceptCSElse
    (Py.apiCall (Event.updateSandboxRideCall ride_id ride_status)
      (env.update_sandbox_ride ride_id ride_status))
    (fun error => fail_print error)
    (fun update_product =>
      if verbose then
        success_print_msg
          (toString update_product.status_code ++ " New status: " ++ ride_status)
      else pure ())

/-- The function `request_ufp_ride(api_client, ...)`: estimate the upfront-pricing product,
request a ride with the `fare_id` of the estimate, print the ride info paragraph
and return `(request_id, pickup_estimate, fare display)`; a
`ClientError`/`ServerError` from either SDK call is caught, printed twice
(`print` then `fail_print`) and the function returns `None`. -/
def request_ufp_ride (env : Env) (start_lat start_lng end_lat end_lng : ℚ) :
    Py (Option (JVal × JVal × JVal)) :=
  tryExceptCSElse
    (do
      let estimate ← Py.apiCall
        (Event.estimateRideCall UFP_PRODUCT_ID start_lat start_lng end_lat end_lng 2)
        (env.estimate_ride UFP_PRODUCT_ID start_lat start_lng end_lat end_lng 2)
      let fare := dictGet estimate.json "fare"
      let fare_id ← Py.liftE (fare.getItem "fare_id")
      let request ← Py.apiCall
        (Event.requestRideCall UFP_PRODUCT_ID start_lat start_lng end_lat end_lng 2
          fare_id)
        (env.request_ride UFP_PRODUCT_ID start_lat start_lng end_lat end_lng 2
          fare_id)
      pure (estimate, request))
    (fun error => do
      Py.emit [Event.printExn error]
      fail_print error
      pure Option.none)
    (fun er => do
      let estimate := er.1
      let request := er.2
      let fareJ ← Py.liftE (dictGetItem estimate.json "fare")
      let fare ← Py.liftE (fareJ.getItem "display")
      let pickup_estimate ← Py.liftE (dictGetItem estimate.json "pickup_estimate")
      let tripJ ← Py.liftE (dictGetItem estimate.json "trip")
      let durJ ← Py.liftE (tripJ.getItem "duration_estimate")
      let trip_duration_estimate ← Py.liftE (durJ.divByNum 60)
      Py.emit [Event.paragraphPrintRideInfo fare pickup_estimate
        trip_duration_estimate]
      pure (Option.some (dictGet request.json "request_id", pickup_estimate, fare)))

/-- A window event ends the `show_ui` loop exactly when the window was closed
(`None`) or the OK button was clicked: `if event in (None, OK): break`. -/
def WinEvent.isTerminal (w : WinEvent) : Bool :=
  w.event == Option.none || w.event == Option.some "OK"

/-- The `while True:` loop of `show_ui`: read an event, print it, break on a
terminal event.  Returns the emitted trace and whether the loop broke before
the user-event record ran out (running out means `window.Read()` blocks
forever). -/
def show_ui_loop : List WinEvent → List Event × Bool
  | [] => ([], false)
  | w :: ws =>
      if w.isTerminal then
        ([Event.windowReadEvt, Event.printWinRead w.event w.values], true)
      else
        let rest := show_ui_loop ws
        (Event.windowReadEvt :: Event.printWinRead w.event w.values :: rest.1,
         rest.2)

/-- The function `show_ui(eta, price)`: open the modal window showing arrival time and
price, loop over window events until OK or close, then close the window. -/
def show_ui (uiEvents : List WinEvent) (eta price : JVal) : Py Unit :=
  let run := show_ui_loop uiEvents
  (Event.windowShow eta price ::
     (run.1 ++ if run.2 then [Event.windowClose] else []),
   if run.2 then PyOut.ok () else PyOut.hang)

/-- The function `on_button(channel)`: the whole ride flow.  `stop` stands for the Python
variable `end` (a Lean keyword).  The two `get_latlng` calls share the
on-disk cache, so the second one starts from the cache the first one left. -/
def on_button (env : Env) (disk : Cache) (channel : String) : Py Unit := do
  let _ ← Py.apiCall Event.cancelCurrentRide env.cancel_current_ride
  Py.emit [Event.printMsg ("Frage Koordinaten ab...")]
  let g1 := get_latlng env.geocode disk START_NAME
  Py.emit g1.1
  let g2 := get_latlng env.geocode g1.2.1 END_NAME
  Py.emit g2.1
  match g1.2.2 with
  | Option.none => Py.emit [Event.printMsg ("Bitte gültige Startadresse eingeben")]
  | Option.some start => do
    (match g2.2.2 with
     | Option.none => Py.emit [Event.printMsg ("Bitte gültige Endadresse eingeben")]
     | Option.some _ => pure ())
    Py.emit [Event.printMsg ("Start (" ++ toString start.latitude ++ ", " ++
      toString start.longitude ++ ")")]
    match g2.2.2 with
    | Option.none =>
        Py.raise (PyExn.attributeError "NoneType object has no attribute latitude")
    | Option.some stop => do
      Py.emit [Event.printMsg ("Ende (" ++ toString stop.latitude ++ ", " ++
        toString stop.longitude ++ ")")]
      paragraph_print ("Anfrage einer Fahrt...\nVon: " ++ start.display ++
        "\nNach: " ++ stop.display)
      let r ← request_ufp_ride env start.latitude start.longitude stop.latitude
        stop.longitude
      match r with
      | Option.none =>
          Py.raise (PyExn.typeError "cannot unpack non-iterable NoneType object")
      | Option.some rpf => do
        let ride_id := rpf.1
        let pickup_estimate := rpf.2.1
        let fare := rpf.2.2
        paragraph_print ("Akzeptiere Fahrt...")
        update_ride env "accepted" ride_id true
        paragraph_print ("Warten bis Fahrer da ist...")
        show_ui env.uiEvents pickup_estimate fare
        paragraph_print ("Einsteigen und losfahren...")
        update_ride env "in_progress" ride_id true
        Py.emit [Event.sleepTenths 50]
        paragraph_print ("Am Ziel angekommen...")
        update_ride env "completed" ride_id true

/-- The function `init_gpio()`: configure the GPIO library and pin 10 as an input. -/
def init_gpio : Py Unit := Py.emit [Event.gpioSetup]

/-- Python `input(prompt)`: print the prompt, then block until the user presses
enter (never returning if they do not). -/
def input_line (prompt : String) (pressesEnter : Bool) : Py String :=
  ([Event.inputPrompt prompt], if pressesEnter then PyOut.ok "" else PyOut.hang)

/-- The main block (run as a script).  `gpioAvailable` tells whether
`import RPi.GPIO` succeeds; on failure the flow runs directly once, on
success `on_button` (the `Callback.onButtonCb` tag) is registered as a
rising-edge callback on pin 10 with a 2000 ms bouncetime and the program
blocks on `input` until the user presses enter, then cleans up. -/
def main_block (env : Env) (disk : Cache) (gpioAvailable : Bool)
    (userPressesEnter : Bool) : Py Unit :=
  if gpioAvailable then do
    Py.emit [Event.printMsg ("Starte im Raspberry-Pi Modus")]
    init_gpio
    Py.emit [Event.gpioAddEventDetectRising 10 Callback.onButtonCb 2000]
    let _ ← input_line ("Press enter to quit\n\n") userPressesEnter
    Py.emit [Event.gpioCleanup]
  else do
    Py.emit [Event.printMsg ("Starte im Nicht-Raspberry-Pi Modus")]
    on_button env disk ""

/-! ### Trace filters used by the temporal claims -/

/-- The sandbox status updates in a trace, as (ride id, status) pairs. -/
def updatesOf (t : List Event) : List (JVal × String) :=
  t.filterMap fun ev =>
    match ev with
    | Event.updateSandboxRideCall rid st => Option.some (rid, st)
    | _ => Option.none

/-- The ride-API calls in a trace (cancel, estimate, request, update). -/
def apiCallsOf (t : List Event) : List Event :=
  t.filter fun ev =>
    match ev with
    | Event.cancelCurrentRide => true
    | Event.estimateRideCall _ _ _ _ _ _ => true
    | Event.requestRideCall _ _ _ _ _ _ _ => true
    | Event.updateSandboxRideCall _ _ => true
    | _ => false

/-- The sandbox status updates and window openings in a trace, in order. -/
def showsAndUpdates (t : List Event) : List Event :=
  t.filter fun ev =>
    match ev with
    | Event.updateSandboxRideCall _ _ => true
    | Event.windowShow _ _ => true
    | _ => false

/-! ### Concrete environments used as witnesses -/

/-- A concrete environment whose ride SDK fails every estimate and request
with a `ClientError` and every sandbox update with a `ServerError`, and whose
geocoder resolves nothing. -/
def errEnv : Env where
  cancel_current_ride := Except.ok ⟨[], 204⟩
  estimate_ride := fun _ _ _ _ _ _ => Except.error (PyExn.clientError "nope")
  request_ride := fun _ _ _ _ _ _ _ => Except.error (PyExn.clientError "nope")
  update_sandbox_ride := fun _ _ => Except.error (PyExn.serverError "boom")
  geocode := fun _ => Option.none
  uiEvents := []

/-- A concrete JSON body for a successful upfront-pricing estimate. -/
def happyEstimateJson : List (String × JVal) :=
  [("fare", JVal.obj [("fare_id", JVal.str "fare-1"),
      ("display", JVal.str "12,34 EUR")]),
   ("pickup_estimate", JVal.num 5),
   ("trip", JVal.obj [("duration_estimate", JVal.num 1200)])]

/-- A concrete JSON body for a successful ride request. -/
def happyRequestJson : List (String × JVal) := [("request_id", JVal.str "rid-1")]

/-- A concrete environment in which every SDK call succeeds, both addresses
geocode, and the user clicks OK on the dialog at the first read. -/
def happyEnv : Env where
  cancel_current_ride := Except.ok ⟨[], 204⟩
  estimate_ride := fun _ _ _ _ _ _ => Except.ok ⟨happyEstimateJson, 200⟩
  request_ride := fun _ _ _ _ _ _ _ => Except.ok ⟨happyRequestJson, 202⟩
  update_sandbox_ride := fun _ _ => Except.ok ⟨[], 204⟩
  geocode := fun loc =>
    if loc = START_NAME then Option.some ⟨48, 11, "Start"⟩
    else Option.some ⟨49, 12, "Ziel"⟩
  uiEvents := [⟨Option.some "OK", JVal.obj []⟩]

/-- Like `happyEnv`, but the upfront-pricing estimate fails with a
`ClientError`, so the ride request fails inside `request_ufp_ride`. -/
def failRequestEnv : Env :=
  { happyEnv with
    estimate_ride := fun _ _ _ _ _ _ => Except.error (PyExn.clientError "nope") }

/-- Like `happyEnv`, but only the start address geocodes; the end address
resolves to `None`. -/
def mixedEnv : Env :=
  { happyEnv with
    geocode := fun loc =>
      if loc = START_NAME then Option.some ⟨48, 11, "Start"⟩ else Option.none }

/-! ### Reduction lemmas for the embedding -/

@[simp] theorem Py.bind_eq {α β : Type} (x : Py α) (f : α → Py β) :
    x >>= f = Py.bind x f := rfl

@[simp] theorem Py.pure_eq {α : Type} (a : α) :
    (pure a : Py α) = ([], PyOut.ok a) := rfl

@[simp] theorem Py.bind_mk_ok {α β : Type} (t : List Event) (a : α) (f : α → Py β) :
    Py.bind (t, PyOut.ok a) f = (t ++ (f a).1, (f a).2) := rfl

@[simp] theorem Py.bind_mk_exn {α β : Type} (t : List Event) (e : PyExn)
    (f : α → Py β) : Py.bind (t, PyOut.exn e) f = (t, PyOut.exn e) := rfl

@[simp] theorem Py.bind_mk_hang {α β : Type} (t : List Event) (f : α → Py β) :
    Py.bind (t, PyOut.hang) f = (t, PyOut.hang) := rfl

@[simp] theorem Py.apiCall_ok (ev : Event) (resp : Response) :
    Py.apiCall ev (Except.ok resp) = ([ev], PyOut.ok resp) := rfl

@[simp] theorem Py.apiCall_error (ev : Event) (e : PyExn) :
    Py.apiCall ev (Except.error e) = ([ev], PyOut.exn e) := rfl

@[simp] theorem Py.liftE_ok {α : Type} (a : α) :
    Py.liftE (Except.ok a) = (([], PyOut.ok a) : Py α) := rfl

@[simp] theorem Py.liftE_error {α : Type} (e : PyExn) :
    Py.liftE (Except.error e) = (([], PyOut.exn e) : Py α) := rfl

@[simp] theorem Py.emit_eq (es : List Event) : Py.emit es = (es, PyOut.ok ()) := rfl

@[simp] theorem Py.raise_eq {α : Type} (e : PyExn) :
    (Py.raise e : Py α) = ([], PyOut.exn e) := rfl

@[simp] theorem tryExceptCSElse_mk_ok {α β : Type} (t : List Event) (a : α)
    (handler : PyExn → Py β) (elsePart : α → Py β) :
    tryExceptCSElse (t, PyOut.ok a) handler elsePart =
      (t ++ (elsePart a).1, (elsePart a).2) := rfl

theorem tryExceptCSElse_mk_exn {α β : Type} (t : List Event) (e : PyExn)
    (handler : PyExn → Py β) (elsePart : α → Py β) :
    tryExceptCSElse (t, PyOut.exn e) handler elsePart =
      if e.isCS then (t ++ (handler e).1, (handler e).2) else (t, PyOut.exn e) := by
  unfold tryExceptCSElse
  by_cases h : e.isCS <;> simp [h]

@[simp] theorem tryExceptCSElse_mk_hang {α β : Type} (t : List Event)
    (handler : PyExn → Py β) (elsePart : α → Py β) :
    tryExceptCSElse ((t, PyOut.hang) : Py α) handler elsePart = (t, PyOut.hang) := rfl

/-! ### C4 and C5: the geocode cache -/

/-- C4: a location already present in the persistent cache is answered from
the cache: `get_latlng` emits no events at all (so no geocoder call and no
sleep), leaves the cache exactly as it was, and returns the cached value. -/
theorem claim_C4_cache_hit (geocode : String → Option GeoLoc) (disk : Cache)
    (location : String) (v : Option GeoLoc)
    (h : lookupCache disk location = Option.some v) :
    get_latlng geocode disk location = ([], disk, v) := by
  unfold get_latlng
  rw [h]

/-- Witness for C4 at a concrete one-entry cache. -/
theorem claim_C4_cache_hit_witness :
    lookupCache [("a", Option.some ⟨48, 11, "A"⟩)] "a" =
      Option.some (Option.some ⟨48, 11, "A"⟩) ∧
    get_latlng (fun _ => Option.none) [("a", Option.some ⟨48, 11, "A"⟩)] "a" =
      ([], [("a", Option.some ⟨48, 11, "A"⟩)], Option.some ⟨48, 11, "A"⟩) :=
  ⟨rfl, claim_C4_cache_hit _ _ _ _ rfl⟩

/-- C5: a location not in the persistent cache makes `get_latlng` sleep the
fixed 1.1 seconds, call the geocoder once on that location, store the
answer of the geocoder under the location, sync the cache, and return the value
now stored in the cache (the geocoder call appears exactly once in the
trace, and the new cache answers the location with the stored value). -/
theorem claim_C5_cache_miss (geocode : String → Option GeoLoc) (disk : Cache)
    (location : String) (h : lookupCache disk location = Option.none) :
    get_latlng geocode disk location =
      ([Event.sleepTenths 11, Event.geocodeCall location,
        Event.cacheSetEvt location (geocode location), Event.cacheSyncEvt],
       setCache disk location (geocode location), geocode location) ∧
    lookupCache (setCache disk location (geocode location)) location =
      Option.some (geocode location) ∧
    ((get_latlng geocode disk location).1.countP fun ev =>
        match ev with | Event.geocodeCall _ => true | _ => false) = 1 := by
  unfold get_latlng
  rw [h]
  refine ⟨rfl, ?_, ?_⟩
  · simp [lookupCache, setCache, List.lookup]
  · rfl

/-- Witness for C5 at a concrete empty cache. -/
theorem claim_C5_cache_miss_witness :
    lookupCache [] "b" = Option.none ∧
    get_latlng (fun _ => Option.some ⟨1, 2, "B"⟩) [] "b" =
      ([Event.sleepTenths 11, Event.geocodeCall "b",
        Event.cacheSetEvt "b" (Option.some ⟨1, 2, "B"⟩), Event.cacheSyncEvt],
       [("b", Option.some ⟨1, 2, "B"⟩)], Option.some ⟨1, 2, "B"⟩) :=
  ⟨rfl, (claim_C5_cache_miss (fun _ => Option.some ⟨1, 2, "B"⟩) [] "b" rfl).1⟩

/-! ### C3: error handling in the three API wrappers -/

/-- C3: a `ClientError`/`ServerError` (`e.isCS`) raised by the underlying SDK
call is caught inside each of `estimate_ride`, `update_ride` and
`request_ufp_ride`: the function prints a failure message and returns
normally (with `None` in place of the ride triple for `request_ufp_ride`,
whose handler also covers its second, request-issuing SDK call); any other
exception `e2` propagates uncaught out of all three. -/
theorem claim_C3_error_handling (env : Env) (a b c d : ℚ) (rid : JVal)
    (st : String) (vb : Bool) (e : PyExn) (hcs : e.isCS = true) :
    (env.estimate_ride SURGE_PRODUCT_ID a b c d 2 = Except.error e →
      estimate_ride env a b c d =
        ([Event.estimateRideCall SURGE_PRODUCT_ID a b c d 2, Event.failPrintEvt e],
         PyOut.ok ())) ∧
    (env.update_sandbox_ride rid st = Except.error e →
      update_ride env st rid vb =
        ([Event.updateSandboxRideCall rid st, Event.failPrintEvt e], PyOut.ok ())) ∧
    (env.estimate_ride UFP_PRODUCT_ID a b c d 2 = Except.error e →
      request_ufp_ride env a b c d =
        ([Event.estimateRideCall UFP_PRODUCT_ID a b c d 2, Event.printExn e,
          Event.failPrintEvt e], PyOut.ok Option.none)) ∧
    (∀ est fid, env.estimate_ride UFP_PRODUCT_ID a b c d 2 = Except.ok est →
      (dictGet est.json "fare").getItem "fare_id" = Except.ok fid →
      env.request_ride UFP_PRODUCT_ID a b c d 2 fid = Except.error e →
      request_ufp_ride env a b c d =
        ([Event.estimateRideCall UFP_PRODUCT_ID a b c d 2,
          Event.requestRideCall UFP_PRODUCT_ID a b c d 2 fid, Event.printExn e,
          Event.failPrintEvt e], PyOut.ok Option.none)) ∧
    (∀ e2 : PyExn, e2.isCS = false →
      (env.estimate_ride SURGE_PRODUCT_ID a b c d 2 = Except.error e2 →
        estimate_ride env a b c d =
          ([Event.estimateRideCall SURGE_PRODUCT_ID a b c d 2], PyOut.exn e2)) ∧
      (env.update_sandbox_ride rid st = Except.error e2 →
        update_ride env st rid vb =
          ([Event.updateSandboxRideCall rid st], PyOut.exn e2)) ∧
      (env.estimate_ride UFP_PRODUCT_ID a b c d 2 = Except.error e2 →
        request_ufp_ride env a b c d =
          ([Event.estimateRideCall UFP_PRODUCT_ID a b c d 2], PyOut.exn e2))) := by
  refine ⟨?_, ?_, ?_, ?_, ?_⟩
  · intro h
    simp [estimate_ride, h, tryExceptCSElse_mk_exn, hcs, fail_print]
  · intro h
    simp [update_ride, h, tryExceptCSElse_mk_exn, hcs, fail_print]
  · intro h
    simp [request_ufp_ride, h, tryExceptCSElse_mk_exn, hcs, fail_print, Py.bind]
  · intro est fid hest hfid hreq
    simp [request_ufp_ride, hest, hfid, hreq, tryExceptCSElse_mk_exn, hcs,
      fail_print, Py.bind]
  · intro e2 hcs2
    refine ⟨?_, ?_, ?_⟩
    · intro h
      simp [estimate_ride, h, tryExceptCSElse_mk_exn, hcs2]
    · intro h
      simp [update_ride, h, tryExceptCSElse_mk_exn, hcs2]
    · intro h
      simp [request_ufp_ride, h, tryExceptCSElse_mk_exn, hcs2, Py.bind]

/-- Witness for C3: in `errEnv` the three wrappers catch the errors and
return normally after fail-printing. -/
theorem claim_C3_error_handling_witness :
    estimate_ride errEnv 1 2 3 4 =
      ([Event.estimateRideCall SURGE_PRODUCT_ID 1 2 3 4 2,
        Event.failPrintEvt (PyExn.clientError "nope")], PyOut.ok ()) ∧
    update_ride errEnv "accepted" JVal.none true =
      ([Event.updateSandboxRideCall JVal.none "accepted",
        Event.failPrintEvt (PyExn.serverError "boom")], PyOut.ok ()) ∧
    request_ufp_ride errEnv 1 2 3 4 =
      ([Event.estimateRideCall UFP_PRODUCT_ID 1 2 3 4 2,
        Event.printExn (PyExn.clientError "nope"),
        Event.failPrintEvt (PyExn.clientError "nope")], PyOut.ok Option.none) :=
  ⟨(claim_C3_error_handling errEnv 1 2 3 4 JVal.none "accepted" true
      (PyExn.clientError "nope") rfl).1 rfl,
   (claim_C3_error_handling errEnv 1 2 3 4 JVal.none "accepted" true
      (PyExn.serverError "boom") rfl).2.1 rfl,
   (claim_C3_error_handling errEnv 1 2 3 4 JVal.none "accepted" true
      (PyExn.clientError "nope") rfl).2.2.1 rfl⟩

/-! ### C2: the upfront-pricing request uses the estimate it just obtained -/

/-- C2: whenever `request_ufp_ride` returns a ride triple, the ride request
was issued with the `fare_id` taken from the `fare` of the estimate obtained
immediately before (the API calls of the trace are exactly the estimate call
followed by the request call, both for the upfront-pricing product with the
same coordinates and seat count 2), and the returned triple is the created
`request_id` of the created request, the `pickup_estimate` of the estimate, and the
display fare of the estimate. -/
theorem claim_C2_ufp_request (env : Env) (a b c d : ℚ) (rid pe f : JVal)
    (h : (request_ufp_ride env a b c d).2 = PyOut.ok (Option.some (rid, pe, f))) :
    ∃ est req fid fareJ,
      env.estimate_ride UFP_PRODUCT_ID a b c d 2 = Except.ok est ∧
      (dictGet est.json "fare").getItem "fare_id" = Except.ok fid ∧
      env.request_ride UFP_PRODUCT_ID a b c d 2 fid = Except.ok req ∧
      rid = dictGet req.json "request_id" ∧
      dictGetItem est.json "pickup_estimate" = Except.ok pe ∧
      dictGetItem est.json "fare" = Except.ok fareJ ∧
      fareJ.getItem "display" = Except.ok f ∧
      apiCallsOf (request_ufp_ride env a b c d).1 =
        [Event.estimateRideCall UFP_PRODUCT_ID a b c d 2,
         Event.requestRideCall UFP_PRODUCT_ID a b c d 2 fid] := by
  rcases hest : env.estimate_ride UFP_PRODUCT_ID a b c d 2 with e | est
  · rcases hcs : e.isCS <;>
      simp [request_ufp_ride, hest, tryExceptCSElse_mk_exn, hcs, fail_print,
        Py.bind] at h
  rcases hfid : (dictGet est.json "fare").getItem "fare_id" with e | fid
  · rcases hcs : e.isCS <;>
      simp [request_ufp_ride, hest, hfid, tryExceptCSElse_mk_exn, hcs, fail_print,
        Py.bind] at h
  rcases hreq : env.request_ride UFP_PRODUCT_ID a b c d 2 fid with e | req
  · rcases hcs : e.isCS <;>
      simp [request_ufp_ride, hest, hfid, hreq, tryExceptCSElse_mk_exn, hcs,
        fail_print, Py.bind] at h
  rcases hfare : dictGetItem est.json "fare" with e | fareJ
  · simp [request_ufp_ride, hest, hfid, hreq, hfare, Py.bind] at h
  rcases hdisp : fareJ.getItem "display" with e | f0
  · simp [request_ufp_ride, hest, hfid, hreq, hfare, hdisp, Py.bind] at h
  rcases hpe : dictGetItem est.json "pickup_estimate" with e | pe0
  · simp [request_ufp_ride, hest, hfid, hreq, hfare, hdisp, hpe, Py.bind] at h
  rcases htrip : dictGetItem est.json "trip" with e | tripJ
  · simp [request_ufp_ride, hest, hfid, hreq, hfare, hdisp, hpe, htrip, Py.bind] at h
  rcases hdur : tripJ.getItem "duration_estimate" with e | durJ
  · simp [request_ufp_ride, hest, hfid, hreq, hfare, hdisp, hpe, htrip, hdur,
      Py.bind] at h
  rcases hdiv : durJ.divByNum 60 with e | q
  · simp [request_ufp_ride, hest, hfid, hreq, hfare, hdisp, hpe, htrip, hdur,
      hdiv, Py.bind] at h
  · simp [request_ufp_ride, hest, hfid, hreq, hfare, hdisp, hpe, htrip, hdur,
      hdiv, Py.bind] at h
    obtain ⟨h1, h2, h3⟩ := h
    subst h2
    subst h3
    subst h1
    refine ⟨est, req, fid, fareJ, ?_, ?_, ?_, ?_, ?_, ?_, ?_, ?_⟩ <;>
      first
        | rfl
        | simp [request_ufp_ride, hest, hfid, hreq, hfare, hdisp, hpe, htrip,
            hdur, hdiv, Py.bind, apiCallsOf]

/-- Witness for C2 in the concrete happy environment. -/
theorem claim_C2_ufp_request_witness :
    (request_ufp_ride happyEnv 1 2 3 4).2 =
      PyOut.ok (Option.some (JVal.str "rid-1", JVal.num 5, JVal.str "12,34 EUR")) ∧
    ∃ est req fid fareJ,
      happyEnv.estimate_ride UFP_PRODUCT_ID 1 2 3 4 2 = Except.ok est ∧
      (dictGet est.json "fare").getItem "fare_id" = Except.ok fid ∧
      happyEnv.request_ride UFP_PRODUCT_ID 1 2 3 4 2 fid = Except.ok req ∧
      JVal.str "rid-1" = dictGet req.json "request_id" ∧
      dictGetItem est.json "pickup_estimate" = Except.ok (JVal.num 5) ∧
      dictGetItem est.json "fare" = Except.ok fareJ ∧
      fareJ.getItem "display" = Except.ok (JVal.str "12,34 EUR") ∧
      apiCallsOf (request_ufp_ride happyEnv 1 2 3 4).1 =
        [Event.estimateRideCall UFP_PRODUCT_ID 1 2 3 4 2,
         Event.requestRideCall UFP_PRODUCT_ID 1 2 3 4 2 fid] :=
  ⟨rfl, claim_C2_ufp_request happyEnv 1 2 3 4 _ _ _ rfl⟩

/-! ### Segment lemmas about the traces of the individual stages -/

/-- The function `get_latlng` emits no API calls, no sandbox updates and no GUI events. -/
theorem get_latlng_filters (g : String → Option GeoLoc) (d : Cache) (loc : String) :
    updatesOf (get_latlng g d loc).1 = [] ∧
    showsAndUpdates (get_latlng g d loc).1 = [] ∧
    apiCallsOf (get_latlng g d loc).1 = [] := by
  unfold get_latlng
  rcases lookupCache d loc with _ | v <;>
    simp [updatesOf, showsAndUpdates, apiCallsOf]

/-- The function `update_ride` always emits its sandbox-update call first, followed by a
tail free of updates and GUI events, and either returns normally or
propagates an exception (it never blocks). -/
theorem update_ride_shape (env : Env) (st : String) (rid : JVal) (vb : Bool) :
    ∃ tl o,
      update_ride env st rid vb = (Event.updateSandboxRideCall rid st :: tl, o) ∧
      updatesOf tl = [] ∧ showsAndUpdates tl = [] ∧
      (o = PyOut.ok () ∨ ∃ e : PyExn, o = PyOut.exn e) := by
  rcases h : env.update_sandbox_ride rid st with e | resp
  · rcases hcs : e.isCS
    · refine ⟨[], PyOut.exn e, ?_, ?_, ?_, Or.inr ⟨e, rfl⟩⟩ <;>
        simp [update_ride, h, tryExceptCSElse_mk_exn, hcs, updatesOf,
          showsAndUpdates]
    · refine ⟨[Event.failPrintEvt e], PyOut.ok (), ?_, ?_, ?_, Or.inl rfl⟩ <;>
        simp [update_ride, h, tryExceptCSElse_mk_exn, hcs, fail_print, updatesOf,
          showsAndUpdates]
  · cases vb
    · refine ⟨[], PyOut.ok (), ?_, ?_, ?_, Or.inl rfl⟩ <;>
        simp [update_ride, h, updatesOf, showsAndUpdates]
    · refine ⟨[Event.successPrintMsg
          (toString resp.status_code ++ " New status: " ++ st)],
        PyOut.ok (), ?_, ?_, ?_, Or.inl rfl⟩ <;>
        simp [update_ride, h, updatesOf, showsAndUpdates, success_print_msg]

/-- The function `request_ufp_ride` emits no sandbox updates and no GUI events. -/
theorem request_ufp_ride_filters (env : Env) (a b c d : ℚ) :
    updatesOf (request_ufp_ride env a b c d).1 = [] ∧
    showsAndUpdates (request_ufp_ride env a b c d).1 = [] := by
  rcases hest : env.estimate_ride UFP_PRODUCT_ID a b c d 2 with e | est
  · rcases hcs : e.isCS <;>
      simp [request_ufp_ride, hest, tryExceptCSElse_mk_exn, hcs, fail_print,
        Py.bind, updatesOf, showsAndUpdates]
  rcases hfid : (dictGet est.json "fare").getItem "fare_id" with e | fid
  · rcases hcs : e.isCS <;>
      simp [request_ufp_ride, hest, hfid, tryExceptCSElse_mk_exn, hcs, fail_print,
        Py.bind, updatesOf, showsAndUpdates]
  rcases hreq : env.request_ride UFP_PRODUCT_ID a b c d 2 fid with e | req
  · rcases hcs : e.isCS <;>
      simp [request_ufp_ride, hest, hfid, hreq, tryExceptCSElse_mk_exn, hcs,
        fail_print, Py.bind, updatesOf, showsAndUpdates]
  rcases hfare : dictGetItem est.json "fare" with e | fareJ
  · simp [request_ufp_ride, hest, hfid, hreq, hfare, Py.bind, updatesOf,
      showsAndUpdates]
  rcases hdisp : fareJ.getItem "display" with e | f0
  · simp [request_ufp_ride, hest, hfid, hreq, hfare, hdisp, Py.bind, updatesOf,
      showsAndUpdates]
  rcases hpe : dictGetItem est.json "pickup_estimate" with e | pe0
  · simp [request_ufp_ride, hest, hfid, hreq, hfare, hdisp, hpe, Py.bind,
      updatesOf, showsAndUpdates]
  rcases htrip : dictGetItem est.json "trip" with e | tripJ
  · simp [request_ufp_ride, hest, hfid, hreq, hfare, hdisp, hpe, htrip, Py.bind,
      updatesOf, showsAndUpdates]
  rcases hdur : tripJ.getItem "duration_estimate" with e | durJ
  · simp [request_ufp_ride, hest, hfid, hreq, hfare, hdisp, hpe, htrip, hdur,
      Py.bind, updatesOf, showsAndUpdates]
  rcases hdiv : durJ.divByNum 60 with e | q <;>
    simp [request_ufp_ride, hest, hfid, hreq, hfare, hdisp, hpe, htrip, hdur,
      hdiv, Py.bind, updatesOf, showsAndUpdates]

/-- The `show_ui` event loop emits no sandbox updates and no window openings. -/
theorem show_ui_loop_filters (evs : List WinEvent) :
    updatesOf (show_ui_loop evs).1 = [] ∧
    showsAndUpdates (show_ui_loop evs).1 = [] := by
  induction evs with
  | nil => simp [show_ui_loop, updatesOf, showsAndUpdates]
  | cons w ws ih =>
    by_cases h : w.isTerminal = true
    · simp [show_ui_loop, h, updatesOf, showsAndUpdates]
    · rw [Bool.not_eq_true] at h
      constructor
      · simpa [show_ui_loop, h, updatesOf] using ih.1
      · simpa [show_ui_loop, h, showsAndUpdates] using ih.2

/-- The `show_ui` event loop breaks exactly when one of the window events the
user will produce is terminal (OK click or window close). -/
theorem show_ui_loop_breaks_iff (evs : List WinEvent) :
    (show_ui_loop evs).2 = true ↔ ∃ w ∈ evs, w.isTerminal = true := by
  induction evs with
  | nil => simp [show_ui_loop]
  | cons w ws ih =>
    by_cases h : w.isTerminal = true
    · simp [show_ui_loop, h]
    · rw [Bool.not_eq_true] at h
      simp [show_ui_loop, h, ih]

/-- Evaluation of `show_ui` when the loop breaks: the window is shown, the loop runs, the
window is closed, and the call returns. -/
theorem show_ui_eq_of_break (evs : List WinEvent) (eta price : JVal)
    (hb : (show_ui_loop evs).2 = true) :
    show_ui evs eta price =
      (Event.windowShow eta price ::
        ((show_ui_loop evs).1 ++ [Event.windowClose]), PyOut.ok ()) := by
  simp [show_ui, hb]

/-- Evaluation of `show_ui` when the loop never breaks: the window is shown, the loop trace
is emitted, and the call blocks forever. -/
theorem show_ui_eq_of_block (evs : List WinEvent) (eta price : JVal)
    (hb : (show_ui_loop evs).2 = false) :
    show_ui evs eta price =
      (Event.windowShow eta price :: (show_ui_loop evs).1, PyOut.hang) := by
  simp [show_ui, hb]

/-- The only GUI-or-update event in a `show_ui` trace is the single window
opening, which shows exactly its two arguments. -/
theorem show_ui_filters (evs : List WinEvent) (eta price : JVal) :
    updatesOf (show_ui evs eta price).1 = [] ∧
    showsAndUpdates (show_ui evs eta price).1 = [Event.windowShow eta price] := by
  obtain ⟨h1, h2⟩ := show_ui_loop_filters evs
  cases hb : (show_ui_loop evs).2
  · rw [show_ui_eq_of_block evs eta price hb]
    constructor
    · simpa [updatesOf] using h1
    · simpa [showsAndUpdates] using h2
  · rw [show_ui_eq_of_break evs eta price hb]
    constructor
    · simp only [updatesOf, List.filterMap_cons, List.filterMap_append] at h1 ⊢
      simp [h1]
    · simp only [showsAndUpdates, List.filter_cons, List.filter_append] at h2 ⊢
      simp [h2]

/-! ### Push-through computation for the trace filters -/

@[simp] theorem updatesOf_nil : updatesOf [] = [] := rfl

@[simp] theorem updatesOf_append (s t : List Event) :
    updatesOf (s ++ t) = updatesOf s ++ updatesOf t := by
  simp [updatesOf]

@[simp] theorem updatesOf_cons_update (rid : JVal) (st : String) (t : List Event) :
    updatesOf (Event.updateSandboxRideCall rid st :: t) = (rid, st) :: updatesOf t :=
  rfl

@[simp] theorem updatesOf_cons_cancel (t : List Event) :
    updatesOf (Event.cancelCurrentRide :: t) = updatesOf t := rfl

@[simp] theorem updatesOf_cons_printMsg (s : String) (t : List Event) :
    updatesOf (Event.printMsg s :: t) = updatesOf t := rfl

@[simp] theorem updatesOf_cons_para (s : String) (t : List Event) :
    updatesOf (Event.paragraphPrintMsg s :: t) = updatesOf t := rfl

@[simp] theorem updatesOf_cons_sleep (n : Nat) (t : List Event) :
    updatesOf (Event.sleepTenths n :: t) = updatesOf t := rfl

@[simp] theorem updatesOf_cons_windowShow (a b : JVal) (t : List Event) :
    updatesOf (Event.windowShow a b :: t) = updatesOf t := rfl

@[simp] theorem updatesOf_cons_windowClose (t : List Event) :
    updatesOf (Event.windowClose :: t) = updatesOf t := rfl

@[simp] theorem showsAndUpdates_nil : showsAndUpdates [] = [] := rfl

@[simp] theorem showsAndUpdates_append (s t : List Event) :
    showsAndUpdates (s ++ t) = showsAndUpdates s ++ showsAndUpdates t := by
  simp [showsAndUpdates]

@[simp] theorem showsAndUpdates_cons_update (rid : JVal) (st : String)
    (t : List Event) :
    showsAndUpdates (Event.updateSandboxRideCall rid st :: t) =
      Event.updateSandboxRideCall rid st :: showsAndUpdates t := rfl

@[simp] theorem showsAndUpdates_cons_windowShow (a b : JVal) (t : List Event) :
    showsAndUpdates (Event.windowShow a b :: t) =
      Event.windowShow a b :: showsAndUpdates t := rfl

@[simp] theorem showsAndUpdates_cons_cancel (t : List Event) :
    showsAndUpdates (Event.cancelCurrentRide :: t) = showsAndUpdates t := rfl

@[simp] theorem showsAndUpdates_cons_printMsg (s : String) (t : List Event) :
    showsAndUpdates (Event.printMsg s :: t) = showsAndUpdates t := rfl

@[simp] theorem showsAndUpdates_cons_para (s : String) (t : List Event) :
    showsAndUpdates (Event.paragraphPrintMsg s :: t) = showsAndUpdates t := rfl

@[simp] theorem showsAndUpdates_cons_sleep (n : Nat) (t : List Event) :
    showsAndUpdates (Event.sleepTenths n :: t) = showsAndUpdates t := rfl

@[simp] theorem showsAndUpdates_cons_windowClose (t : List Event) :
    showsAndUpdates (Event.windowClose :: t) = showsAndUpdates t := rfl

/-! ### The master run-shape lemma for `on_button` -/

/-- Any run of `on_button` issues a prefix of the fixed sandbox update
sequence accepted → in_progress → completed (all for one ride id), shows at
most one window (between the accepted and in_progress updates, with the
pickup estimate and fare of the ride request); a run that returns normally
either issued no updates at all or issued all three with the window shown in
between. -/
theorem on_button_shape (env : Env) (disk : Cache) (ch : String) :
    ∃ rid pe f : JVal,
      updatesOf (on_button env disk ch).1 <+:
        [(rid, "accepted"), (rid, "in_progress"), (rid, "completed")] ∧
      showsAndUpdates (on_button env disk ch).1 <+:
        [Event.updateSandboxRideCall rid "accepted", Event.windowShow pe f,
         Event.updateSandboxRideCall rid "in_progress",
         Event.updateSandboxRideCall rid "completed"] ∧
      ((on_button env disk ch).2 = PyOut.ok () →
        (updatesOf (on_button env disk ch).1 = [] ∧
         showsAndUpdates (on_button env disk ch).1 = []) ∨
        (updatesOf (on_button env disk ch).1 =
           [(rid, "accepted"), (rid, "in_progress"), (rid, "completed")] ∧
         showsAndUpdates (on_button env disk ch).1 =
           [Event.updateSandboxRideCall rid "accepted", Event.windowShow pe f,
            Event.updateSandboxRideCall rid "in_progress",
            Event.updateSandboxRideCall rid "completed"] ∧
         ∃ a b c d : ℚ,
           (request_ufp_ride env a b c d).2 =
             PyOut.ok (Option.some (rid, pe, f)))) := by
  have hg1 := get_latlng_filters env.geocode disk START_NAME
  have hg2 := get_latlng_filters env.geocode
    (get_latlng env.geocode disk START_NAME).2.1 END_NAME
  rcases hcan : env.cancel_current_ride with e | resp
  · refine ⟨JVal.none, JVal.none, JVal.none, ?_, ?_, ?_⟩ <;>
      simp [on_button, hcan, List.nil_prefix]
  rcases hs1 : (get_latlng env.geocode disk START_NAME).2.2 with _ | st1
  · refine ⟨JVal.none, JVal.none, JVal.none, ?_, ?_, ?_⟩ <;>
      simp [on_button, hcan, hs1, hg1.1, hg1.2.1, hg2.1, hg2.2.1, List.nil_prefix]
  rcases hs2 : (get_latlng env.geocode
      (get_latlng env.geocode disk START_NAME).2.1 END_NAME).2.2 with _ | st2
  · refine ⟨JVal.none, JVal.none, JVal.none, ?_, ?_, ?_⟩ <;>
      simp [on_button, hcan, hs1, hs2, hg1.1, hg1.2.1, hg2.1, hg2.2.1,
        List.nil_prefix, paragraph_print]
  have hrf := request_ufp_ride_filters env st1.latitude st1.longitude
    st2.latitude st2.longitude
  rcases hr : request_ufp_ride env st1.latitude st1.longitude st2.latitude
      st2.longitude with ⟨rt, ro⟩
  rw [hr] at hrf
  rcases ro with a | e
  case exn =>
    refine ⟨JVal.none, JVal.none, JVal.none, ?_, ?_, ?_⟩ <;>
      simp [on_button, hcan, hs1, hs2, hr, hg1.1, hg1.2.1, hg2.1, hg2.2.1,
        hrf.1, hrf.2, List.nil_prefix, paragraph_print]
  case hang =>
    refine ⟨JVal.none, JVal.none, JVal.none, ?_, ?_, ?_⟩ <;>
      simp [on_button, hcan, hs1, hs2, hr, hg1.1, hg1.2.1, hg2.1, hg2.2.1,
        hrf.1, hrf.2, List.nil_prefix, paragraph_print]
  case ok =>
  rcases a with _ | rpf
  · refine ⟨JVal.none, JVal.none, JVal.none, ?_, ?_, ?_⟩ <;>
      simp [on_button, hcan, hs1, hs2, hr, hg1.1, hg1.2.1, hg2.1, hg2.2.1,
        hrf.1, hrf.2, List.nil_prefix, paragraph_print]
  obtain ⟨rid, pe, f⟩ := rpf
  obtain ⟨tl1, o1, hu1, htl1u, htl1s, ho1⟩ := update_ride_shape env "accepted" rid true
  rcases ho1 with ho1 | ⟨e1, ho1⟩
  case inr.intro =>
    subst ho1
    refine ⟨rid, pe, f, ?_, ?_, ?_⟩
    · refine ⟨[(rid, "in_progress"), (rid, "completed")], ?_⟩
      simp [on_button, hcan, hs1, hs2, hr, hu1, hg1.1, hg2.1, hrf.1, htl1u,
        paragraph_print]
    · refine ⟨[Event.windowShow pe f,
        Event.updateSandboxRideCall rid "in_progress",
        Event.updateSandboxRideCall rid "completed"], ?_⟩
      simp [on_button, hcan, hs1, hs2, hr, hu1, hg1.2.1, hg2.2.1, hrf.2, htl1s,
        paragraph_print]
    · intro hok
      simp [on_button, hcan, hs1, hs2, hr, hu1, paragraph_print] at hok
  subst ho1
  rcases hb : (show_ui_loop env.uiEvents).2
  case false =>
    have hsu := show_ui_eq_of_block env.uiEvents pe f hb
    have hlf := show_ui_loop_filters env.uiEvents
    refine ⟨rid, pe, f, ?_, ?_, ?_⟩
    · refine ⟨[(rid, "in_progress"), (rid, "completed")], ?_⟩
      simp [on_button, hcan, hs1, hs2, hr, hu1, hsu, hg1.1, hg2.1, hrf.1, htl1u,
        hlf.1, paragraph_print]
    · refine ⟨[Event.updateSandboxRideCall rid "in_progress",
        Event.updateSandboxRideCall rid "completed"], ?_⟩
      simp [on_button, hcan, hs1, hs2, hr, hu1, hsu, hg1.2.1, hg2.2.1, hrf.2,
        htl1s, hlf.2, paragraph_print]
    · intro hok
      simp [on_button, hcan, hs1, hs2, hr, hu1, hsu, paragraph_print] at hok
  case true =>
  have hsu := show_ui_eq_of_break env.uiEvents pe f hb
  have hlf := show_ui_loop_filters env.uiEvents
  obtain ⟨tl2, o2, hu2, htl2u, htl2s, ho2⟩ :=
    update_ride_shape env "in_progress" rid true
  rcases ho2 with ho2 | ⟨e2, ho2⟩
  case inr.intro =>
    subst ho2
    refine ⟨rid, pe, f, ?_, ?_, ?_⟩
    · refine ⟨[(rid, "completed")], ?_⟩
      simp [on_button, hcan, hs1, hs2, hr, hu1, hsu, hu2, hg1.1, hg2.1, hrf.1,
        htl1u, htl2u, hlf.1, paragraph_print]
    · refine ⟨[Event.updateSandboxRideCall rid "completed"], ?_⟩
      simp [on_button, hcan, hs1, hs2, hr, hu1, hsu, hu2, hg1.2.1, hg2.2.1,
        hrf.2, htl1s, htl2s, hlf.2, paragraph_print]
    · intro hok
      simp [on_button, hcan, hs1, hs2, hr, hu1, hsu, hu2, paragraph_print] at hok
  subst ho2
  obtain ⟨tl3, o3, hu3, htl3u, htl3s, ho3⟩ :=
    update_ride_shape env "completed" rid true
  have hU : updatesOf (on_button env disk ch).1 =
      [(rid, "accepted"), (rid, "in_progress"), (rid, "completed")] := by
    simp [on_button, hcan, hs1, hs2, hr, hu1, hsu, hu2, hu3, hg1.1, hg2.1,
      hrf.1, htl1u, htl2u, htl3u, hlf.1, paragraph_print]
  have hS : showsAndUpdates (on_button env disk ch).1 =
      [Event.updateSandboxRideCall rid "accepted", Event.windowShow pe f,
       Event.updateSandboxRideCall rid "in_progress",
       Event.updateSandboxRideCall rid "completed"] := by
    simp [on_button, hcan, hs1, hs2, hr, hu1, hsu, hu2, hu3, hg1.2.1, hg2.2.1,
      hrf.2, htl1s, htl2s, htl3s, hlf.2, paragraph_print]
  refine ⟨rid, pe, f, ⟨[], by simp [hU]⟩, ⟨[], by simp [hS]⟩, ?_⟩
  intro _
  right
  exact ⟨hU, hS, st1.latitude, st1.longitude, st2.latitude, st2.longitude,
    by rw [hr]⟩

/-! ### Remaining helpers -/

/-- The `show_ui` call returns exactly when some user window event is
terminal (the OK button or a window close); otherwise it blocks forever. -/
theorem show_ui_ok_iff (evs : List WinEvent) (eta price : JVal) :
    (show_ui evs eta price).2 = PyOut.ok () ↔ ∃ w ∈ evs, w.isTerminal = true := by
  rw [← show_ui_loop_breaks_iff]
  cases hb : (show_ui_loop evs).2
  · rw [show_ui_eq_of_block evs eta price hb]
    simp
  · rw [show_ui_eq_of_break evs eta price hb]
    simp

@[simp] theorem apiCallsOf_nil : apiCallsOf [] = [] := rfl

@[simp] theorem apiCallsOf_append (s t : List Event) :
    apiCallsOf (s ++ t) = apiCallsOf s ++ apiCallsOf t := by
  simp [apiCallsOf]

@[simp] theorem apiCallsOf_cons_cancel (t : List Event) :
    apiCallsOf (Event.cancelCurrentRide :: t) =
      Event.cancelCurrentRide :: apiCallsOf t := rfl

@[simp] theorem apiCallsOf_cons_printMsg (s : String) (t : List Event) :
    apiCallsOf (Event.printMsg s :: t) = apiCallsOf t := rfl

/-! ### C1: the fixed sandbox status sequence -/

/-- C1: in every run of `on_button` the sandbox status updates sent are a
prefix of accepted → in_progress → completed for a single ride id (so no
other status value is ever sent, and the order is fixed), and a run that
returns normally and issued any update at all issued exactly those three, in
that order, for precisely the ride id that the ride request
(`request_ufp_ride`) returned in that run. -/
theorem claim_C1_update_sequence (env : Env) (disk : Cache) (ch : String) :
    ∃ rid : JVal,
      updatesOf (on_button env disk ch).1 <+:
        [(rid, "accepted"), (rid, "in_progress"), (rid, "completed")] ∧
      ((on_button env disk ch).2 = PyOut.ok () →
        updatesOf (on_button env disk ch).1 ≠ [] →
        updatesOf (on_button env disk ch).1 =
          [(rid, "accepted"), (rid, "in_progress"), (rid, "completed")] ∧
        ∃ pe f : JVal, ∃ a b c d : ℚ,
          (request_ufp_ride env a b c d).2 =
            PyOut.ok (Option.some (rid, pe, f))) := by
  obtain ⟨rid, pe, f, h1, _, h3⟩ := on_button_shape env disk ch
  refine ⟨rid, h1, ?_⟩
  intro hok hne
  rcases h3 hok with ⟨hU, _⟩ | ⟨hU, _, htie⟩
  · exact absurd hU hne
  · exact ⟨hU, pe, f, htie⟩

/-- Witness for C1: in the concrete happy environment the run returns
normally and the updates are exactly the three statuses, in order, for the
requested ride id. -/
theorem claim_C1_update_sequence_witness :
    (on_button happyEnv [] "").2 = PyOut.ok () ∧
    updatesOf (on_button happyEnv [] "").1 ≠ [] ∧
    ∃ rid : JVal,
      updatesOf (on_button happyEnv [] "").1 =
        [(rid, "accepted"), (rid, "in_progress"), (rid, "completed")] ∧
      ∃ pe f : JVal, ∃ a b c d : ℚ,
        (request_ufp_ride happyEnv a b c d).2 =
          PyOut.ok (Option.some (rid, pe, f)) := by
  have hU : updatesOf (on_button happyEnv [] "").1 =
      [(JVal.str "rid-1", "accepted"), (JVal.str "rid-1", "in_progress"),
       (JVal.str "rid-1", "completed")] := rfl
  refine ⟨rfl, ?_, ?_⟩
  · rw [hU]
    exact List.cons_ne_nil _ _
  · obtain ⟨rid, _, himp⟩ := claim_C1_update_sequence happyEnv [] ""
    obtain ⟨hU2, htie⟩ := himp rfl (by rw [hU]; exact List.cons_ne_nil _ _)
    exact ⟨rid, hU2, htie⟩

/-! ### C8: the blocking modal dialog -/

/-- C8: the event loop of the dialog returns exactly when the user clicks OK or
closes the window (otherwise it blocks); and in every successful run of
`on_button` that issued updates, exactly one window is shown, it displays
precisely the pickup estimate and display fare returned by the ride request,
and it sits between the `accepted` and the `in_progress` status updates. -/
theorem claim_C8_modal_dialog (env : Env) (disk : Cache) (ch : String) :
    (∀ (evs : List WinEvent) (eta price : JVal),
      (show_ui evs eta price).2 = PyOut.ok () ↔
        ∃ w ∈ evs, w.isTerminal = true) ∧
    ((on_button env disk ch).2 = PyOut.ok () →
      showsAndUpdates (on_button env disk ch).1 = [] ∨
      ∃ rid pe f : JVal,
        showsAndUpdates (on_button env disk ch).1 =
          [Event.updateSandboxRideCall rid "accepted", Event.windowShow pe f,
           Event.updateSandboxRideCall rid "in_progress",
           Event.updateSandboxRideCall rid "completed"] ∧
        ∃ a b c d : ℚ,
          (request_ufp_ride env a b c d).2 = PyOut.ok (Option.some (rid, pe, f))) := by
  constructor
  · exact show_ui_ok_iff
  · intro hok
    obtain ⟨rid, pe, f, _, _, h3⟩ := on_button_shape env disk ch
    rcases h3 hok with ⟨_, hS⟩ | ⟨_, hS, htie⟩
    · exact Or.inl hS
    · exact Or.inr ⟨rid, pe, f, hS, htie⟩

/-- Witness for C8: the happy run shows the window between the accepted and
in_progress updates with the requested pickup estimate and fare. -/
theorem claim_C8_modal_dialog_witness :
    (on_button happyEnv [] "").2 = PyOut.ok () ∧
    ∃ rid pe f : JVal,
      showsAndUpdates (on_button happyEnv [] "").1 =
        [Event.updateSandboxRideCall rid "accepted", Event.windowShow pe f,
         Event.updateSandboxRideCall rid "in_progress",
         Event.updateSandboxRideCall rid "completed"] ∧
      ∃ a b c d : ℚ,
        (request_ufp_ride happyEnv a b c d).2 =
          PyOut.ok (Option.some (rid, pe, f)) := by
  have hSfull : showsAndUpdates (on_button happyEnv [] "").1 =
      [Event.updateSandboxRideCall (JVal.str "rid-1") "accepted",
       Event.windowShow (JVal.num 5) (JVal.str "12,34 EUR"),
       Event.updateSandboxRideCall (JVal.str "rid-1") "in_progress",
       Event.updateSandboxRideCall (JVal.str "rid-1") "completed"] := rfl
  refine ⟨rfl, ?_⟩
  rcases (claim_C8_modal_dialog happyEnv [] "").2 rfl with hS | h
  · exact absurd hS (by rw [hSfull]; exact List.cons_ne_nil _ _)
  · exact h

/-! ### C9: the cancellation always comes first -/

/-- C9: every invocation of `on_button` emits the `cancel_current_ride` SDK
call as its very first event, in particular before any estimate, ride
request or sandbox status update. -/
theorem claim_C9_cancel_first (env : Env) (disk : Cache) (ch : String) :
    (on_button env disk ch).1.head? = Option.some Event.cancelCurrentRide := by
  rcases hcan : env.cancel_current_ride with e | resp <;>
    simp [on_button, hcan]

@[simp] theorem updatesOf_cons_estimate (p : String) (a b c d : ℚ) (n : Nat)
    (t : List Event) :
    updatesOf (Event.estimateRideCall p a b c d n :: t) = updatesOf t := rfl

@[simp] theorem updatesOf_cons_printExn (e : PyExn) (t : List Event) :
    updatesOf (Event.printExn e :: t) = updatesOf t := rfl

@[simp] theorem updatesOf_cons_failPrint (e : PyExn) (t : List Event) :
    updatesOf (Event.failPrintEvt e :: t) = updatesOf t := rfl

/-! ### C6: a failed ride request crashes the tuple unpacking -/

/-- C6: when the ride API fails the upfront-pricing estimate with a
`ClientError`/`ServerError` (so the ride request fails inside
`request_ufp_ride`), `request_ufp_ride` returns `None`, and a run of
`on_button` that reaches the request (cancellation succeeded and both
addresses geocoded) dies on the three-way tuple unpacking of that `None`
with an uncaught `TypeError`, before any sandbox status update is issued. -/
theorem claim_C6_failed_request_unpack (env : Env) (disk : Cache) (ch : String)
    (e : PyExn) (hcs : e.isCS = true)
    (hest : ∀ a b c d : ℚ,
      env.estimate_ride UFP_PRODUCT_ID a b c d 2 = Except.error e)
    (hcan : ∃ resp, env.cancel_current_ride = Except.ok resp)
    (hs1 : ∃ l1, (get_latlng env.geocode disk START_NAME).2.2 = Option.some l1)
    (hs2 : ∃ l2, (get_latlng env.geocode
      (get_latlng env.geocode disk START_NAME).2.1 END_NAME).2.2 =
        Option.some l2) :
    (∀ a b c d : ℚ, (request_ufp_ride env a b c d).2 = PyOut.ok Option.none) ∧
    (on_button env disk ch).2 =
      PyOut.exn (PyExn.typeError "cannot unpack non-iterable NoneType object") ∧
    updatesOf (on_button env disk ch).1 = [] := by
  have hreq : ∀ a b c d : ℚ, request_ufp_ride env a b c d =
      ([Event.estimateRideCall UFP_PRODUCT_ID a b c d 2, Event.printExn e,
        Event.failPrintEvt e], PyOut.ok Option.none) := by
    intro a b c d
    simp [request_ufp_ride, hest a b c d, tryExceptCSElse_mk_exn, hcs,
      fail_print, Py.bind]
  obtain ⟨resp, hcan⟩ := hcan
  obtain ⟨l1, h1⟩ := hs1
  obtain ⟨l2, h2⟩ := hs2
  have hg1 := get_latlng_filters env.geocode disk START_NAME
  have hg2 := get_latlng_filters env.geocode
    (get_latlng env.geocode disk START_NAME).2.1 END_NAME
  refine ⟨fun a b c d => by rw [hreq a b c d], ?_, ?_⟩
  · simp [on_button, hcan, h1, h2, hreq, paragraph_print]
  · simp [on_button, hcan, h1, h2, hreq, paragraph_print, hg1.1, hg2.1]

/-- Witness for C6: with a failing estimate the unpacking failure branch is
reached from a concrete environment. -/
theorem claim_C6_failed_request_unpack_witness :
    (request_ufp_ride failRequestEnv 1 2 3 4).2 = PyOut.ok Option.none ∧
    (on_button failRequestEnv [] "").2 =
      PyOut.exn (PyExn.typeError "cannot unpack non-iterable NoneType object") ∧
    updatesOf (on_button failRequestEnv [] "").1 = [] := by
  have h := claim_C6_failed_request_unpack failRequestEnv [] ""
    (PyExn.clientError "nope") rfl (fun a b c d => rfl) ⟨⟨[], 204⟩, rfl⟩
    ⟨⟨48, 11, "Start"⟩, rfl⟩ ⟨⟨49, 12, "Ziel"⟩, rfl⟩
  exact ⟨h.1 1 2 3 4, h.2.1, h.2.2⟩

/-! ### C7: asymmetric geocode failure handling -/

/-- C7: when the start address resolves to `None`, `on_button` prints the
start-address message and returns normally with no ride API call after the
cancellation; when the start address resolves but the end address resolves
to `None`, `on_button` prints the end-address message yet continues, and
dies with an `AttributeError` when it reads coordinates off the `None` end
location. -/
theorem claim_C7_geocode_asymmetry (env : Env) (disk : Cache) (ch : String)
    (resp : Response) (hcan : env.cancel_current_ride = Except.ok resp) :
    ((get_latlng env.geocode disk START_NAME).2.2 = Option.none →
      (on_button env disk ch).2 = PyOut.ok () ∧
      Event.printMsg "Bitte gültige Startadresse eingeben" ∈
        (on_button env disk ch).1 ∧
      apiCallsOf (on_button env disk ch).1 = [Event.cancelCurrentRide]) ∧
    (∀ l1 : GeoLoc,
      (get_latlng env.geocode disk START_NAME).2.2 = Option.some l1 →
      (get_latlng env.geocode (get_latlng env.geocode disk START_NAME).2.1
        END_NAME).2.2 = Option.none →
      (on_button env disk ch).2 =
        PyOut.exn (PyExn.attributeError "NoneType object has no attribute latitude") ∧
      Event.printMsg "Bitte gültige Endadresse eingeben" ∈
        (on_button env disk ch).1) := by
  have hg1 := get_latlng_filters env.geocode disk START_NAME
  have hg2 := get_latlng_filters env.geocode
    (get_latlng env.geocode disk START_NAME).2.1 END_NAME
  constructor
  · intro h1
    refine ⟨?_, ?_, ?_⟩ <;>
      simp [on_button, hcan, h1, hg1.2.2, hg2.2.2]
  · intro l1 h1 h2
    constructor <;> simp [on_button, hcan, h1, h2]

/-- Witness for C7: both failure branches are reached from concrete
environments. -/
theorem claim_C7_geocode_asymmetry_witness :
    ((get_latlng errEnv.geocode [] START_NAME).2.2 = Option.none ∧
     (on_button errEnv [] "").2 = PyOut.ok () ∧
     apiCallsOf (on_button errEnv [] "").1 = [Event.cancelCurrentRide]) ∧
    ((get_latlng mixedEnv.geocode [] START_NAME).2.2 =
       Option.some ⟨48, 11, "Start"⟩ ∧
     (on_button mixedEnv [] "").2 =
       PyOut.exn (PyExn.attributeError "NoneType object has no attribute latitude")) := by
  constructor
  · refine ⟨rfl, ?_, ?_⟩
    · exact ((claim_C7_geocode_asymmetry errEnv [] "" ⟨[], 204⟩ rfl).1 rfl).1
    · exact ((claim_C7_geocode_asymmetry errEnv [] "" ⟨[], 204⟩ rfl).1 rfl).2.2
  · refine ⟨rfl, ?_⟩
    exact ((claim_C7_geocode_asymmetry mixedEnv [] "" ⟨[], 204⟩ rfl).2
      ⟨48, 11, "Start"⟩ rfl rfl).1

/-! ### C10: the `__main__` block -/

/-- C10: run as a script without the GPIO library, the program announces
non-Raspberry-Pi mode and invokes the ride flow `on_button` directly exactly
once (its trace and outcome are those of that single invocation); with the GPIO
library available it configures the pins, registers `on_button` as a
rising-edge callback on pin 10 with a 2000 ms bouncetime, and blocks on
console input: it cleans up and exits when the user presses enter, and
blocks forever otherwise. -/
theorem claim_C10_main_modes (env : Env) (disk : Cache) (pressesEnter : Bool) :
    main_block env disk false pressesEnter =
      (Event.printMsg "Starte im Nicht-Raspberry-Pi Modus" ::
        (on_button env disk "").1, (on_button env disk "").2) ∧
    main_block env disk true true =
      ([Event.printMsg "Starte im Raspberry-Pi Modus", Event.gpioSetup,
        Event.gpioAddEventDetectRising 10 Callback.onButtonCb 2000,
        Event.inputPrompt "Press enter to quit\n\n", Event.gpioCleanup],
       PyOut.ok ()) ∧
    main_block env disk true false =
      ([Event.printMsg "Starte im Raspberry-Pi Modus", Event.gpioSetup,
        Event.gpioAddEventDetectRising 10 Callback.onButtonCb 2000,
        Event.inputPrompt "Press enter to quit\n\n"],
       PyOut.hang) := by
  refine ⟨?_, ?_, ?_⟩ <;>
    simp [main_block, init_gpio, input_line, Py.bind]

end UberButton
